import Mathlib

/-!
Verification of `untar-to-s3.py`: a shallow embedding of the script's two
functions, `__deploy_asset_to_s3` and `deploy_tarball_to_s3`, together with
theorems about their behaviour.

Modelling choices:
* bytes are `List Nat`;
* a tar archive is a `List TarMember` (name, size, regular-file flag, data),
  mirroring the fields of `tarfile.TarInfo` that the script reads;
* the two library effects the script delegates to — gzip compression at
  `compresslevel=9` and the S3 `set_contents_from_string` call, which may
  raise — are an explicit environment `Env`: an arbitrary compression
  function and a success predicate on the attempted put call;
* `mimetypes.guess_type` is modelled as an extension-table lookup over a
  subset of the Python standard library table;
* the gevent pool only parallelises the independent uploads (each job is
  a pure call of `__deploy_asset_to_s3` on data handed to it at dispatch
  time), so the loop is embedded as sequential recursion over the members.
-/

/-- A tar archive member, with the fields of `tarfile.TarInfo` the script
reads: `name`, `size`, `isfile()` and the bytes `extractfile(member).read()`
returns. -/
structure TarMember where
  name : String
  size : Nat
  isfile : Bool
  data : List Nat
deriving DecidableEq

/-- The headers dictionary built by `__deploy_asset_to_s3` (src lines 92-96,
105-106).  `contentType` is `Option` because `mimetypes.guess_type` can
return `None`; `contentEncoding` is `Option` because the key
`'Content-Encoding'` is only inserted in the compression branch. -/
structure Headers where
  contentType : Option String
  cacheControl : String
  contentLength : Nat
  contentEncoding : Option String
deriving DecidableEq

/-- One attempted `key.set_contents_from_string` call (src lines 112-114):
the key path, the body bytes, the headers, and the keyword arguments
`policy`, `replace`, `reduced_redundancy`. -/
structure PutCall where
  key : String
  body : List Nat
  headers : Headers
  policy : String
  replace : Bool
  reducedRedundancy : Bool
deriving DecidableEq

/-- The library effects the script delegates to: gzip compression at
`compresslevel=9` (an arbitrary byte-to-byte function) and the outcome of an
attempted S3 put (`true` = the call returns, `false` = it raises and the
`except` branch at src lines 116-119 runs). -/
structure Env where
  gzipCompress9 : List Nat → List Nat
  putSucceeds : PutCall → Bool

/-- Python `s.startswith(p)`: `p` is a leading substring of `s`. -/
def str_startswith (s p : String) : Bool :=
  p.toList.isPrefixOf s.toList

/-- Python `s.endswith(p)`: `p` is a trailing substring of `s`. -/
def str_endswith (s p : String) : Bool :=
  p.toList.isSuffixOf s.toList

/-- Python `s.split(c)` for a one-character separator, on character lists:
splitting at every occurrence, keeping empty fields. -/
def split_on_char (c : Char) : List Char → List (List Char)
  | [] => [[]]
  | x :: xs =>
    match split_on_char c xs with
    | [] => if x = c then [[], []] else [[x]]
    | h :: t => if x = c then [] :: h :: t else (x :: h) :: t

/-- Modelled from the Python standard library: the extension part (with its
leading dot) of the final path component, as computed by
`posixpath.splitext`; leading dots of the component do not begin an
extension. -/
def splitext_ext (path : String) : String :=
  let base := (path.toList.reverse.takeWhile (fun c => c ≠ '/')).reverse
  let core := base.dropWhile (fun c => c = '.')
  if core.any (fun c => c = '.') then
    String.mk ('.' :: (core.reverse.takeWhile (fun c => c ≠ '.')).reverse)
  else ""

/-- Modelled from the Python standard library: a subset of the Python 2.7
`mimetypes` extension table (`types_map`), enough for the extensions
exercised here. -/
def mimetypes_types_map : List (String × String) :=
  [(".txt", "text/plain"), (".html", "text/html"), (".htm", "text/html"),
   (".css", "text/css"), (".js", "application/javascript"),
   (".xml", "text/xml"), (".json", "application/json"),
   (".svg", "image/svg+xml"), (".png", "image/png"), (".jpg", "image/jpeg"),
   (".jpeg", "image/jpeg"), (".gif", "image/gif"), (".pdf", "application/pdf"),
   (".bin", "application/octet-stream"), (".exe", "application/octet-stream"),
   (".tar", "application/x-tar"), (".zip", "application/zip"),
   (".ico", "image/x-icon"), (".mp3", "audio/mpeg")]

/-- Modelled from the Python standard library: `mimetypes.guess_type(path)[0]`,
the content type guessed from the (lower-cased) extension of `path`, `none`
when the extension is unknown. -/
def guess_type (path : String) : Option String :=
  let ext := String.mk ((splitext_ext path).toList.map Char.toLower)
  (mimetypes_types_map.find? (fun kv => kv.1 == ext)).map (fun kv => kv.2)

/-- `COMPRESSIBLE_FILE_TYPES` (src lines 65-83), verbatim. -/
def COMPRESSIBLE_FILE_TYPES : List String :=
  ["text/plain",
   "text/html",
   "text/javascript",
   "text/css",
   "text/xml",
   "application/javascript",
   "application/x-javascript",
   "application/xml",
   "text/x-component",
   "application/json",
   "application/xhtml+xml",
   "application/rss+xml",
   "application/atom+xml",
   "app/vdn.ms-fontobject",
   "image/svg+xml",
   "application/x-font-ttf",
   "font/opentype",
   "application/octet-stream"]

/-- The test `mimetypes.guess_type(path)[0] in COMPRESSIBLE_FILE_TYPES`
(src line 99); in Python `None in tuple` is `False`. -/
def compressible_content_type (ct : Option String) : Bool :=
  ct.any (fun t => COMPRESSIBLE_FILE_TYPES.contains t)

/-- Modelled from the Python standard library: `os.path.join(a, b)` for two
components on a POSIX system (`posixpath.join`), as called at src line 158:
an absolute second component discards the first; otherwise a separator is
inserted unless the first component is empty or already ends in one. -/
def os_path_join (a b : String) : String :=
  if str_startswith b "/" then b
  else if a = "" || str_endswith a "/" then a ++ b
  else a ++ "/" ++ b

/-- The headers dictionary of `__deploy_asset_to_s3` as it stands at the
put call: built at src lines 92-96 and, when the guessed content type is
compressible and compression is enabled (src line 99), updated at src lines
105-106 with `Content-Encoding: gzip` and the compressed length
(`new_buffer.tell()`). -/
def asset_headers (env : Env) (data : List Nat) (path : String) (size : Nat)
    (compress : Bool) : Headers :=
  if compressible_content_type (guess_type path) && compress then
    { contentType := guess_type path
      cacheControl := "public, max-age=31536000"
      contentLength := (env.gzipCompress9 data).length
      contentEncoding := some "gzip" }
  else
    { contentType := guess_type path
      cacheControl := "public, max-age=31536000"
      contentLength := size
      contentEncoding := none }

/-- The single `set_contents_from_string` call attempted by
`__deploy_asset_to_s3` (src lines 112-114): key path, body bytes (the gzip
of `data` in the compression branch, src lines 100-109, else `data`
unchanged), the headers, `policy='public-read'`, `replace=True`,
`reduced_redundancy=False`. -/
def asset_put_call (env : Env) (data : List Nat) (path : String) (size : Nat)
    (compress : Bool) : PutCall :=
  { key := path
    body := if compressible_content_type (guess_type path) && compress then
              env.gzipCompress9 data
            else data
    headers := asset_headers env data path size compress
    policy := "public-read"
    replace := true
    reducedRedundancy := false }

/-- `__deploy_asset_to_s3` (src lines 86-122).  Returns the value the Python
function returns — `headers['Content-Length']` on success, `0` when the put
raises (src lines 116-119) — together with the list of put calls attempted
(always exactly one; the call is attempted whether or not it succeeds). -/
def deploy_asset_to_s3 (env : Env) (data : List Nat) (path : String)
    (size : Nat) (compress : Bool) : Nat × List PutCall :=
  if env.putSucceeds (asset_put_call env data path size compress) then
    ((asset_headers env data path size compress).contentLength,
     [asset_put_call env data path size compress])
  else
    (0, [asset_put_call env data path size compress])

/-- The per-member loop of `deploy_tarball_to_s3` (src lines 152-167):
non-regular members are skipped; for a regular file the key is
`os.path.join(prefix, member.name)`, one upload job is dispatched with the
member's bytes and size, and `files_uploaded` is incremented.  Returns
`files_uploaded` and the concatenated put calls, in archive order. -/
def deploy_tarball_to_s3 (env : Env) (members : List TarMember)
    (pre : String) (no_compress : Bool) : Nat × List PutCall :=
  match members with
  | [] => (0, [])
  | m :: rest =>
    let r := deploy_tarball_to_s3 env rest pre no_compress
    if m.isfile then
      let a := deploy_asset_to_s3 env m.data (os_path_join pre m.name) m.size (!no_compress)
      (r.1 + 1, a.2 ++ r.2)
    else r

/-- An environment whose compression is the identity and whose puts all
succeed, used to evaluate the embedding at concrete inputs. -/
def envOk : Env :=
  { gzipCompress9 := fun d => d, putSucceeds := fun _ => true }

/-- An environment whose puts all raise, used to evaluate the error path at
concrete inputs. -/
def envFail : Env :=
  { gzipCompress9 := fun d => d, putSucceeds := fun _ => false }

/-- Modelled from the spec: "optionally strips N leading path segments, and
skips entries left empty after stripping".  No stripping parameter exists in
`deploy_tarball_to_s3` in the source; this definition renders the spec's
words, for comparison with the source embedding. -/
def spec_strip_name (n : Nat) (name : String) : Option String :=
  let segs := (split_on_char '/' name.toList).drop n
  let rest := (segs.intersperse ['/']).flatten
  if rest.isEmpty then none else some (String.mk rest)

/-- Modelled from the spec: the keys the archive reader described by the
spec would upload — regular files only, each name stripped of `n` leading
segments, entries left empty skipped, the rest joined to the prefix. -/
def spec_reader_keys (n : Nat) (pre : String) (members : List TarMember) : List String :=
  (members.filter (fun m => m.isfile)).filterMap (fun m =>
    (spec_strip_name n m.name).map (fun nm => os_path_join pre nm))

theorem deploy_asset_snd (env : Env) (d : List Nat) (p : String) (s : Nat) (c : Bool) :
    (deploy_asset_to_s3 env d p s c).2 = [asset_put_call env d p s c] := by
  unfold deploy_asset_to_s3
  split <;> rfl

theorem deploy_tarball_count (env : Env) (members : List TarMember) (pre : String) (nc : Bool) :
    (deploy_tarball_to_s3 env members pre nc).1
      = (members.filter (fun m => m.isfile)).length := by
  induction members with
  | nil => rfl
  | cons m rest ih =>
    cases hm : m.isfile <;>
      simp [deploy_tarball_to_s3, List.filter_cons, hm, ih]

theorem deploy_tarball_calls (env : Env) (members : List TarMember) (pre : String) (nc : Bool) :
    (deploy_tarball_to_s3 env members pre nc).2
      = (members.filter (fun m => m.isfile)).map
          (fun m => asset_put_call env m.data (os_path_join pre m.name) m.size (!nc)) := by
  induction members with
  | nil => rfl
  | cons m rest ih =>
    cases hm : m.isfile <;>
      simp [deploy_tarball_to_s3, List.filter_cons, hm, ih, deploy_asset_snd]

theorem deploy_tarball_keys (env : Env) (members : List TarMember) (pre : String) (nc : Bool) :
    (deploy_tarball_to_s3 env members pre nc).2.map PutCall.key
      = (members.filter (fun m => m.isfile)).map (fun m => os_path_join pre m.name) := by
  rw [deploy_tarball_calls, List.map_map]
  rfl

theorem str_append_assoc (a b c : String) : a ++ b ++ c = a ++ (b ++ c) := by
  cases a
  cases b
  cases c
  apply congrArg String.mk
  apply List.append_assoc

/-- C1, counterexample: the claim says the reader optionally strips N
leading path segments and skips entries left empty after stripping.  With
one segment stripped, the spec's reader would upload the two-segment entry
under the stripped key and skip the one-segment entry, but
`deploy_tarball_to_s3` uploads both under their unmodified names and counts
both: no stripping or skipping exists in the code. -/
theorem C1_counterexample :
    spec_reader_keys 1 "" [⟨"dir/file", 2, true, [7, 8]⟩, ⟨"dir", 1, true, [9]⟩] = ["file"] ∧
    (deploy_tarball_to_s3 envOk [⟨"dir/file", 2, true, [7, 8]⟩, ⟨"dir", 1, true, [9]⟩] "" false).2.map PutCall.key
      = ["dir/file", "dir"] ∧
    (deploy_tarball_to_s3 envOk [⟨"dir/file", 2, true, [7, 8]⟩, ⟨"dir", 1, true, [9]⟩] "" false).1 = 2 := by
  decide

/-- C1, amended: `deploy_tarball_to_s3` performs no leading-path-segment
stripping and never skips an entry for an empty stripped name: every
regular-file member is uploaded, with its unmodified name joined to the
prefix, and the uploaded-files count equals the number of regular-file
members. -/
theorem C1_amended (env : Env) (members : List TarMember) (pre : String) (nc : Bool) :
    (deploy_tarball_to_s3 env members pre nc).2.map PutCall.key
      = (members.filter (fun m => m.isfile)).map (fun m => os_path_join pre m.name) ∧
    (deploy_tarball_to_s3 env members pre nc).1
      = (members.filter (fun m => m.isfile)).length := by
  exact ⟨deploy_tarball_keys env members pre nc, deploy_tarball_count env members pre nc⟩

/-- C2: `__deploy_asset_to_s3` uploads the gzip of the file's bytes exactly
when the content type guessed from the path is in
`COMPRESSIBLE_FILE_TYPES` and the compress flag is set; otherwise it
uploads the original bytes unchanged. -/
theorem C2_compress_iff (env : Env) (d : List Nat) (p : String) (s : Nat) (c : Bool) :
    (deploy_asset_to_s3 env d p s c).2.map PutCall.body
      = [if compressible_content_type (guess_type p) && c then env.gzipCompress9 d else d] := by
  rw [deploy_asset_snd]
  rfl

/-- C3, counterexample: the claim says every uploaded file is placed under
the given prefix, but a member whose name is absolute is uploaded under a
key equal to its own name, which does not start with the prefix. -/
theorem C3_counterexample :
    (deploy_tarball_to_s3 envOk [⟨"/etc/passwd", 1, true, [0]⟩] "production" false).2.map PutCall.key
      = ["/etc/passwd"] ∧
    str_startswith "/etc/passwd" "production" = false := by
  decide

/-- C3, amended: the object key for every regular-file entry is
`os.path.join(prefix, name)`, and whenever the entry's name does not begin
with a slash this key extends the prefix, so the file is placed under it. -/
theorem C3_amended (env : Env) (members : List TarMember) (pre : String) (nc : Bool)
    (n : String) (hn : str_startswith n "/" = false) :
    (deploy_tarball_to_s3 env members pre nc).2.map PutCall.key
      = (members.filter (fun m => m.isfile)).map (fun m => os_path_join pre m.name) ∧
    ∃ rest, os_path_join pre n = pre ++ rest := by
  refine ⟨deploy_tarball_keys env members pre nc, ?_⟩
  unfold os_path_join
  rw [hn]
  simp only [Bool.false_eq_true, if_false]
  by_cases h2 : (pre = "" || str_endswith pre "/") = true
  · exact ⟨n, by rw [if_pos h2]⟩
  · exact ⟨"/" ++ n, by rw [if_neg h2, str_append_assoc]⟩

/-- C3, witness for the amended theorem at a concrete input. -/
theorem C3_amended_witness :
    ((deploy_tarball_to_s3 envOk [⟨"a/b.txt", 1, true, [3]⟩] "production" false).2.map PutCall.key
      = [os_path_join "production" "a/b.txt"] ∧
    ∃ rest, os_path_join "production" "a/b.txt" = "production" ++ rest) := by
  have h := C3_amended envOk [⟨"a/b.txt", 1, true, [3]⟩] "production" false "a/b.txt" (by decide)
  exact ⟨by rw [h.1]; rfl, h.2⟩

/-- C4: only regular-file members produce upload jobs — running the deploy
loop over the archive equals running it over just the regular-file members,
so directories, links, devices and fifos contribute neither a put call nor
an increment of the uploaded-files count. -/
theorem C4_only_regular_files (env : Env) (members : List TarMember) (pre : String) (nc : Bool) :
    deploy_tarball_to_s3 env members pre nc
      = deploy_tarball_to_s3 env (members.filter (fun m => m.isfile)) pre nc := by
  induction members with
  | nil => rfl
  | cons m rest ih =>
    cases hm : m.isfile <;>
      simp [deploy_tarball_to_s3, List.filter_cons, hm, ih]

/-- C5, counterexample: the claim says every put call carries a
content-encoding header, but for a file whose guessed content type is not
compressible (here `image/png`) the headers dictionary is never given a
`Content-Encoding` key, while the put is still issued. -/
theorem C5_counterexample :
    (deploy_asset_to_s3 envOk [1, 2] "logo.png" 2 true).2.map (fun c => c.headers.contentEncoding)
      = [none] ∧
    (deploy_asset_to_s3 envOk [1, 2] "logo.png" 2 true).2.length = 1 := by
  decide

/-- C5, amended: every put call issued by `__deploy_asset_to_s3` carries a
content-type header (the guessed type, possibly null), the cache-control
header `public, max-age=31536000`, a content-length header, and the
`public-read` ACL; a `Content-Encoding: gzip` header is carried exactly
when the file was gzip-compressed. -/
theorem C5_amended (env : Env) (d : List Nat) (p : String) (s : Nat) (c : Bool) :
    (deploy_asset_to_s3 env d p s c).2.map
        (fun call => (call.headers.contentType, call.headers.cacheControl, call.policy))
      = [(guess_type p, "public, max-age=31536000", "public-read")] ∧
    (deploy_asset_to_s3 env d p s c).2.map (fun call => call.headers.contentEncoding)
      = [if compressible_content_type (guess_type p) && c then some "gzip" else none] ∧
    (deploy_asset_to_s3 env d p s c).2.map (fun call => call.headers.contentLength)
      = [if compressible_content_type (guess_type p) && c then
           (env.gzipCompress9 d).length
         else s] := by
  rw [deploy_asset_snd]
  by_cases hg : (compressible_content_type (guess_type p) && c) = true <;>
    simp [asset_put_call, asset_headers, hg]

/-- C6: no retry and no recovery — in an environment where every put
raises, `__deploy_asset_to_s3` returns 0 after attempting the upload
exactly once, and `deploy_tarball_to_s3` still processes every remaining
member: the uploaded-files count equals the number of regular-file members
and one put is still attempted per regular-file member. -/
theorem C6_no_retry (env : Env) (hfail : ∀ call, env.putSucceeds call = false)
    (d : List Nat) (p : String) (s : Nat) (c : Bool)
    (members : List TarMember) (pre : String) (nc : Bool) :
    (deploy_asset_to_s3 env d p s c).1 = 0 ∧
    (deploy_asset_to_s3 env d p s c).2.length = 1 ∧
    (deploy_tarball_to_s3 env members pre nc).1
      = (members.filter (fun m => m.isfile)).length ∧
    (deploy_tarball_to_s3 env members pre nc).2.length
      = (members.filter (fun m => m.isfile)).length := by
  refine ⟨?_, ?_, deploy_tarball_count env members pre nc, ?_⟩
  · unfold deploy_asset_to_s3
    rw [hfail]
    rfl
  · rw [deploy_asset_snd]
    rfl
  · rw [deploy_tarball_calls, List.length_map]

/-- C6, witness at a concrete always-failing environment and input. -/
theorem C6_no_retry_witness :
    (deploy_asset_to_s3 envFail [1] "a.txt" 1 true).1 = 0 ∧
    (deploy_asset_to_s3 envFail [1] "a.txt" 1 true).2.length = 1 ∧
    (deploy_tarball_to_s3 envFail [⟨"a.txt", 1, true, [1]⟩, ⟨"d", 0, false, []⟩] "p" false).1
      = (([⟨"a.txt", 1, true, [1]⟩, ⟨"d", 0, false, []⟩] : List TarMember).filter (fun m => m.isfile)).length ∧
    (deploy_tarball_to_s3 envFail [⟨"a.txt", 1, true, [1]⟩, ⟨"d", 0, false, []⟩] "p" false).2.length
      = (([⟨"a.txt", 1, true, [1]⟩, ⟨"d", 0, false, []⟩] : List TarMember).filter (fun m => m.isfile)).length :=
  C6_no_retry envFail (fun _ => rfl) [1] "a.txt" 1 true
    [⟨"a.txt", 1, true, [1]⟩, ⟨"d", 0, false, []⟩] "p" false

/-- C7: one archive entry maps to one upload — the number of put calls
attempted by the deploy loop equals the number of regular-file members, and
each call of `__deploy_asset_to_s3` attempts exactly one put, regardless of
success. -/
theorem C7_one_put_per_file (env : Env) (members : List TarMember) (pre : String) (nc : Bool)
    (d : List Nat) (p : String) (s : Nat) (c : Bool) :
    (deploy_tarball_to_s3 env members pre nc).2.length
      = (members.filter (fun m => m.isfile)).length ∧
    (deploy_asset_to_s3 env d p s c).2.length = 1 := by
  refine ⟨?_, ?_⟩
  · rw [deploy_tarball_calls, List.length_map]
  · rw [deploy_asset_snd]
    rfl

/-- C8: a regular-file member whose name begins with a slash is uploaded
under a key equal to its own name — `os.path.join` discards the configured
prefix entirely for absolute member names. -/
theorem C8_absolute_name_escapes (env : Env) (pre : String) (m : TarMember) (nc : Bool)
    (habs : str_startswith m.name "/" = true) (hf : m.isfile = true) :
    os_path_join pre m.name = m.name ∧
    (deploy_tarball_to_s3 env [m] pre nc).2.map PutCall.key = [m.name] := by
  have hj : os_path_join pre m.name = m.name := by
    unfold os_path_join
    rw [habs]
    rfl
  refine ⟨hj, ?_⟩
  rw [deploy_tarball_keys]
  simp [List.filter_cons, hf, hj]

/-- C8, witness at a concrete absolute-named member and nonempty prefix. -/
theorem C8_absolute_name_escapes_witness :
    os_path_join "production" "/abs.txt" = "/abs.txt" ∧
    (deploy_tarball_to_s3 envOk [⟨"/abs.txt", 1, true, [5]⟩] "production" false).2.map PutCall.key
      = ["/abs.txt"] :=
  C8_absolute_name_escapes envOk "production" ⟨"/abs.txt", 1, true, [5]⟩ false (by decide) rfl

/-- C9: for any gzip implementation paired with a decompressor that inverts
it, when compression applies (compressible guessed type, compress flag set)
the uploaded body is the gzip encoding of the original bytes, decompressing
it yields the original data, and the content-length header is the length of
the compressed bytes, replacing the original size. -/
theorem C9_gzip_roundtrip (env : Env) (gunzip : List Nat → List Nat)
    (hround : ∀ bs, gunzip (env.gzipCompress9 bs) = bs)
    (d : List Nat) (p : String) (s : Nat)
    (hc : compressible_content_type (guess_type p) = true) :
    ∀ call ∈ (deploy_asset_to_s3 env d p s true).2,
      call.body = env.gzipCompress9 d ∧
      gunzip call.body = d ∧
      call.headers.contentLength = (env.gzipCompress9 d).length := by
  intro call hcall
  rw [deploy_asset_snd, List.mem_singleton] at hcall
  subst hcall
  simp [asset_put_call, asset_headers, hc, hround]

/-- C9, witness: the identity compressor satisfies the roundtrip law, at a
compressible concrete path. -/
theorem C9_gzip_roundtrip_witness :
    (asset_put_call envOk [1, 2] "a.css" 2 true).body = envOk.gzipCompress9 [1, 2] ∧
    (fun bs => bs) (asset_put_call envOk [1, 2] "a.css" 2 true).body = [1, 2] ∧
    (asset_put_call envOk [1, 2] "a.css" 2 true).headers.contentLength
      = (envOk.gzipCompress9 [1, 2]).length :=
  C9_gzip_roundtrip envOk (fun bs => bs) (fun _ => rfl) [1, 2] "a.css" 2 (by decide)
    (asset_put_call envOk [1, 2] "a.css" 2 true) (by rw [deploy_asset_snd]; exact List.mem_singleton.mpr rfl)

/-- C10: `__deploy_asset_to_s3` is total — it returns the content-length
header value (the compressed length when compression applied, the original
size otherwise) when the attempted put succeeds, and 0 when the put raises;
no exception propagates. -/
theorem C10_total_return (env : Env) (d : List Nat) (p : String) (s : Nat) (c : Bool) :
    (deploy_asset_to_s3 env d p s c).1
      = if (deploy_asset_to_s3 env d p s c).2.all (fun call => env.putSucceeds call) then
          (if compressible_content_type (guess_type p) && c then
             (env.gzipCompress9 d).length
           else s)
        else 0 := by
  by_cases hput : env.putSucceeds (asset_put_call env d p s c) = true <;>
    by_cases hg : (compressible_content_type (guess_type p) && c) = true <;>
      simp [deploy_asset_to_s3, asset_headers, hput, hg]
